import Mathlib

/-!
Verification development for the Streamlit Cortex Analyst chat application
(`streamlit_app.py`).  The Python source is shallowly embedded: pure string
manipulation becomes Lean string functions, the Streamlit session state
becomes an explicit record that functions transform, and every remote effect
(the analyst HTTP endpoint, the warehouse SQL execution) is supplied as an
explicit outcome/oracle argument while the requests the code issues are
collected in an explicit trace list.
-/

set_option autoImplicit false

namespace CortexApp

/-! ### String containment (substring test, used for Python `in` on strings) -/

/-- Boolean test that the first list is a prefix of the second. -/
def prefOfB : List Char → List Char → Bool
  | [], _ => true
  | _ :: _, [] => false
  | a :: as, b :: bs => a == b && prefOfB as bs

/-- Boolean test that `n` occurs as a contiguous run inside `h`. -/
def infixOfB (n : List Char) : List Char → Bool
  | [] => n.isEmpty
  | h :: t => prefOfB n (h :: t) || infixOfB n t

/-- `containsB hay needle` models Python `needle in hay` for strings. -/
def containsB (hay needle : String) : Bool :=
  infixOfB needle.data hay.data

theorem prefOfB_self_append (n q : List Char) : prefOfB n (n ++ q) = true := by
  induction n with
  | nil => rfl
  | cons a as ih => simp [prefOfB, ih]

theorem infixOfB_self_append (n q : List Char) : infixOfB n (n ++ q) = true := by
  cases hn : n with
  | nil =>
    cases q with
    | nil => rfl
    | cons b bs => simp [infixOfB, prefOfB]
  | cons a as =>
    simp only [List.cons_append, infixOfB]
    have : prefOfB (a :: as) (a :: as ++ q) = true := prefOfB_self_append (a :: as) q
    simp only [List.cons_append] at this
    simp [this]

theorem infixOfB_append_left (n : List Char) (p t : List Char)
    (h : infixOfB n t = true) : infixOfB n (p ++ t) = true := by
  induction p with
  | nil => simpa using h
  | cons a as ih =>
    simp only [List.cons_append, infixOfB]
    simp [ih]

theorem string_data_append (a b : String) : (a ++ b).data = a.data ++ b.data := rfl

/-- Containment at the head: `n` occurs in `n ++ q`. -/
theorem containsB_here (n q : String) : containsB (n ++ q) n = true := by
  unfold containsB
  rw [string_data_append]
  exact infixOfB_self_append n.data q.data

/-- Containment is preserved by prepending more text. -/
theorem containsB_cons (a b n : String) (h : containsB b n = true) :
    containsB (a ++ b) n = true := by
  unfold containsB at h ⊢
  rw [string_data_append]
  exact infixOfB_append_left n.data a.data b.data h

/-! ### A small JSON universe with Python dict/`in`/indexing semantics

The analyst endpoint answers with JSON; `requests.Response.json()` yields a
Python object.  Exceptions raised by Python operations (`in` on a number,
indexing a list with a string, `.get` on a non-dict) are modelled with
`Except String`. -/

inductive JVal where
  | null
  | str (s : String)
  | num (n : Int)
  | arr (xs : List JVal)
  | obj (fields : List (String × JVal))

/-- First-match association-list lookup, the semantics of Python dict access
(dict keys are unique in practice; first match is a safe generalisation). -/
def jLookup : List (String × JVal) → String → Option JVal
  | [], _ => none
  | (k, v) :: t, k2 => if k = k2 then some v else jLookup t k2

/-- Key lookup on an object value. -/
def jGet : JVal → String → Option JVal
  | .obj l, k => jLookup l k
  | _, _ => none

/-- Whether a dict value has a key (structural, used to state properties). -/
def hasKeyB (v : JVal) (k : String) : Bool :=
  (jGet v k).isSome

/-- Python `k in v`: key test on dicts, substring test on strings, element
test on lists, `TypeError` otherwise. -/
def pyIn (k : String) : JVal → Except String Bool
  | .obj l => .ok (jLookup l k).isSome
  | .str s => .ok (containsB s k)
  | .arr xs => .ok (xs.any fun v => match v with | .str t => t == k | _ => false)
  | .null => .error "TypeError: argument of type NoneType is not iterable"
  | .num _ => .error "TypeError: argument of type int is not iterable"

/-- Python `v[k]` with a string key: dict indexing, `TypeError`/`KeyError`
otherwise. -/
def pyIndex (v : JVal) (k : String) : Except String JVal :=
  match v with
  | .obj l =>
    match jLookup l k with
    | some x => .ok x
    | none => .error ("KeyError: " ++ k)
  | _ => .error "TypeError: indices must be integers"

/-- Python `v.get(k, d)`: total on dicts, `AttributeError` otherwise. -/
def pyGetD (v : JVal) (k : String) (d : JVal) : Except String JVal :=
  match v with
  | .obj l => .ok ((jLookup l k).getD d)
  | _ => .error "AttributeError: object has no attribute get"

/-- Python truthiness of a JSON value. -/
def pyTruthy : JVal → Bool
  | .null => false
  | .str s => s ≠ ""
  | .num n => n ≠ 0
  | .arr xs => ¬xs.isEmpty
  | .obj l => ¬l.isEmpty

/-- How a value renders inside an f-string (`str`/`int` faithfully; the
display of nested containers is abbreviated, no claim depends on it). -/
def toDisplay : JVal → String
  | .null => "None"
  | .str s => s
  | .num n => toString n
  | .arr _ => "[list]"
  | .obj _ => "[dict]"

/-- Python `{**d, k: v}`: keep insertion order, replace the value in place
when the key exists (dict keys are unique, so the first hit is the only
one), append at the end otherwise. -/
def jInsertList : List (String × JVal) → String → JVal → List (String × JVal)
  | [], k, v => [(k, v)]
  | (k2, v2) :: t, k, v =>
    if k2 = k then (k, v) :: t else (k2, v2) :: jInsertList t k v

/-- Dict merge `{**d, k: v}` on an object value (identity on non-dicts,
which never occurs at its call sites). -/
def jInsert (d : JVal) (k : String) (v : JVal) : JVal :=
  match d with
  | .obj l => .obj (jInsertList l k v)
  | other => other

theorem jLookup_jInsertList_ne (l : List (String × JVal)) (k k2 : String)
    (v : JVal) (hne : k ≠ k2) :
    jLookup (jInsertList l k v) k2 = jLookup l k2 := by
  induction l with
  | nil => simp [jInsertList, jLookup, hne]
  | cons p t ih =>
    obtain ⟨a, b⟩ := p
    by_cases ha : a = k
    · subst ha
      simp [jInsertList, jLookup, hne]
    · simp [jInsertList, jLookup, ha, ih]

theorem jLookup_jInsertList_self (l : List (String × JVal)) (k : String)
    (v : JVal) : jLookup (jInsertList l k v) k = some v := by
  induction l with
  | nil => simp [jInsertList, jLookup]
  | cons p t ih =>
    obtain ⟨a, b⟩ := p
    by_cases ha : a = k
    · subst ha
      simp [jInsertList, jLookup]
    · simp [jInsertList, jLookup, ha, ih]

/-! ### Credential resolution (`init_connection_params`)

The Streamlit session state keys `snowflake_*` are modelled as
`Option String` (present / absent), the sidebar input-box keys `*_input`
as `Option String` (the value may be the empty string), environment
variables as `Option String` (`os.environ.get` presence), and the
debug-only secrets section as an optional record of optional keys. -/

/-- The `snowflake_*` session-state keys before/after a resolver run. -/
structure CredState where
  account : Option String
  user : Option String
  authenticator : Option String
  token : Option String
  warehouse : Option String
  database : Option String
  schema : Option String

/-- The sidebar input-box session-state keys (`account_input`, ...). -/
structure InputBoxes where
  account_input : Option String
  user_input : Option String
  token_input : Option String
  warehouse_input : Option String
  database_input : Option String
  schema_input : Option String

/-- The `SNOWFLAKE_*` environment variables (`none` = not in `os.environ`). -/
structure EnvMap where
  SNOWFLAKE_ACCOUNT : Option String
  SNOWFLAKE_USER : Option String
  SNOWFLAKE_PAT : Option String
  SNOWFLAKE_WAREHOUSE : Option String
  SNOWFLAKE_DATABASE : Option String
  SNOWFLAKE_SCHEMA : Option String
  SNOWFLAKE_AUTHENTICATOR : Option String

/-- The `st.secrets["connections"]["snowflake"]` section keys. -/
structure SnowSecrets where
  ACCOUNT : Option String
  USER : Option String
  PAT : Option String
  WAREHOUSE : Option String
  DATABASE : Option String
  SCHEMA : Option String

/-- `has_input_values` from the source: any input-box key present. -/
def hasInputValues (i : InputBoxes) : Bool :=
  i.account_input.isSome || i.user_input.isSome || i.token_input.isSome ||
  i.warehouse_input.isSome || i.database_input.isSome || i.schema_input.isSome

/-- One environment-variable step of the Docker branch: set the field from
the environment only when the field is empty and the environment value is
non-empty and differs from its placeholder. -/
def envStep (current : String) (envVal : String) (placeholder : String) : String :=
  if current = "" ∧ envVal ≠ "" ∧ envVal ≠ placeholder then envVal else current

/-- One secrets step: set the field from the secrets key only when the
field is still empty and the key is present. -/
def secretsStep (current : String) (secretVal : Option String) : String :=
  if current = "" then
    match secretVal with
    | some s => s
    | none => current
  else current

/-- Shallow embedding of `init_connection_params` (src/streamlit_app.py,
lines 28-152).  Returns the post-run session state.  The first block
initialises missing keys to `""` (authenticator to `"snowflake"`); if any
input-box key is present, every present input-box value is copied over the
corresponding field and the function returns; otherwise environment
variables are applied (only inside the Docker branch, i.e. when
`SNOWFLAKE_ACCOUNT` is in the environment) and then, in debug mode, the
secrets.  `SNOWFLAKE_AUTHENTICATOR` is read by the source but never
assigned to the session state, so it does not appear here. -/
def init_connection_params (pre : CredState) (inputs : InputBoxes)
    (env : EnvMap) (debugMode : Bool) (secrets : Option SnowSecrets) :
    CredState :=
  -- initialise-with-defaults block
  let acc0 := pre.account.getD ""
  let usr0 := pre.user.getD ""
  let auth0 := pre.authenticator.getD "snowflake"
  let tok0 := pre.token.getD ""
  let wh0 := pre.warehouse.getD ""
  let db0 := pre.database.getD ""
  let sch0 := pre.schema.getD ""
  if hasInputValues inputs then
    -- input-box values take precedence over everything else (copied
    -- unconditionally for every present key, then early return)
    { account := some (inputs.account_input.getD acc0)
      user := some (inputs.user_input.getD usr0)
      authenticator := some auth0
      token := some (inputs.token_input.getD tok0)
      warehouse := some (inputs.warehouse_input.getD wh0)
      database := some (inputs.database_input.getD db0)
      schema := some (inputs.schema_input.getD sch0) }
  else
    let running_in_docker := env.SNOWFLAKE_ACCOUNT.isSome
    let acc1 := if running_in_docker then
        envStep acc0 (env.SNOWFLAKE_ACCOUNT.getD "") "your-account" else acc0
    let usr1 := if running_in_docker then
        envStep usr0 (env.SNOWFLAKE_USER.getD "") "your-user" else usr0
    let tok1 := if running_in_docker then
        envStep tok0 (env.SNOWFLAKE_PAT.getD "") "your-token" else tok0
    let wh1 := if running_in_docker then
        envStep wh0 (env.SNOWFLAKE_WAREHOUSE.getD "") "your-warehouse" else wh0
    let db1 := if running_in_docker then
        envStep db0 (env.SNOWFLAKE_DATABASE.getD "") "your-database" else db0
    let sch1 := if running_in_docker then
        envStep sch0 (env.SNOWFLAKE_SCHEMA.getD "") "your-schema" else sch0
    match debugMode, secrets with
    | true, some sec =>
      { account := some (secretsStep acc1 sec.ACCOUNT)
        user := some (secretsStep usr1 sec.USER)
        authenticator := some auth0
        token := some (secretsStep tok1 sec.PAT)
        warehouse := some (secretsStep wh1 sec.WAREHOUSE)
        database := some (secretsStep db1 sec.DATABASE)
        schema := some (secretsStep sch1 sec.SCHEMA) }
    | _, _ =>
      { account := some acc1, user := some usr1, authenticator := some auth0
        token := some tok1, warehouse := some wh1, database := some db1
        schema := some sch1 }

/-- The six connection-configuration fields that have input boxes. -/
inductive CField where
  | account | user | token | warehouse | database | schema

def CredState.fieldVal : CredState → CField → Option String
  | s, .account => s.account
  | s, .user => s.user
  | s, .token => s.token
  | s, .warehouse => s.warehouse
  | s, .database => s.database
  | s, .schema => s.schema

def InputBoxes.fieldVal : InputBoxes → CField → Option String
  | i, .account => i.account_input
  | i, .user => i.user_input
  | i, .token => i.token_input
  | i, .warehouse => i.warehouse_input
  | i, .database => i.database_input
  | i, .schema => i.schema_input

/-- The per-field environment placeholder strings rejected by the Docker
branch. -/
def placeholders : List String :=
  ["your-account", "your-user", "your-token", "your-warehouse",
   "your-database", "your-schema"]

/-- Claim C2 as stated: over every resolver run and every field, a
previously resolved non-empty value is never overwritten by an empty one,
and any override of an already-set value uses a non-empty, non-placeholder
value. -/
def credentialOverwriteClaim : Prop :=
  ∀ (pre : CredState) (inputs : InputBoxes) (env : EnvMap)
    (debugMode : Bool) (secrets : Option SnowSecrets) (f : CField)
    (v : String),
    pre.fieldVal f = some v → v ≠ "" →
    ((init_connection_params pre inputs env debugMode secrets).fieldVal f
        = some v ∨
      ∃ w, (init_connection_params pre inputs env debugMode secrets).fieldVal f
          = some w ∧ w ≠ "" ∧ w ∉ placeholders)

/-- A fully populated pre-state used in concrete scenarios. -/
def preSet : CredState :=
  { account := some "acct0", user := some "user0",
    authenticator := some "snowflake", token := some "tok0",
    warehouse := some "wh0", database := some "db0", schema := some "sch0" }

/-- Input boxes where only the account box is present, holding `""`. -/
def inputsEmptyAccount : InputBoxes :=
  { account_input := some "", user_input := none, token_input := none,
    warehouse_input := none, database_input := none, schema_input := none }

/-- Input boxes with no key present. -/
def inputsNone : InputBoxes :=
  { account_input := none, user_input := none, token_input := none,
    warehouse_input := none, database_input := none, schema_input := none }

/-- An empty environment. -/
def envNone : EnvMap :=
  { SNOWFLAKE_ACCOUNT := none, SNOWFLAKE_USER := none, SNOWFLAKE_PAT := none,
    SNOWFLAKE_WAREHOUSE := none, SNOWFLAKE_DATABASE := none,
    SNOWFLAKE_SCHEMA := none, SNOWFLAKE_AUTHENTICATOR := none }

/-- Helper: with some input-box key present, every present input value is
copied to its field verbatim, whatever the other sources hold. -/
theorem init_input_overrides (pre : CredState) (inputs : InputBoxes)
    (env : EnvMap) (debugMode : Bool) (secrets : Option SnowSecrets)
    (f : CField) (w : String) (h : inputs.fieldVal f = some w) :
    (init_connection_params pre inputs env debugMode secrets).fieldVal f
      = some w := by
  have hin : hasInputValues inputs = true := by
    cases f <;> simp only [InputBoxes.fieldVal] at h <;>
      simp [hasInputValues, h]
  cases f <;>
    simp_all [init_connection_params, CredState.fieldVal, InputBoxes.fieldVal,
      hasInputValues]

/-- Helper: with no input-box key present, a non-empty already-resolved
field survives the run unchanged (the environment and secrets branches
only ever write to empty fields). -/
theorem init_no_input_preserves (pre : CredState) (inputs : InputBoxes)
    (env : EnvMap) (debugMode : Bool) (secrets : Option SnowSecrets)
    (f : CField) (v : String) (hin : hasInputValues inputs = false)
    (hv : pre.fieldVal f = some v) (hne : v ≠ "") :
    (init_connection_params pre inputs env debugMode secrets).fieldVal f
      = some v := by
  cases f <;>
    · simp only [CredState.fieldVal] at hv
      rcases debugMode with _ | _ <;> rcases secrets with _ | sec <;>
        simp [init_connection_params, CredState.fieldVal, hin, hv,
          envStep, secretsStep, hne]

/-- Claim C2, counterexample: the claim fails as stated.  With the account
session-state field already resolved to the non-empty value `"acct0"` and
the account input box present but holding the empty string, a resolver run
overwrites the field with `""`: interactive input values are copied
unconditionally, empty or not. -/
theorem C2_counterexample : ¬ credentialOverwriteClaim := by
  intro h
  rcases h preSet inputsEmptyAccount envNone false none .account "acct0"
      rfl (by decide) with h1 | ⟨w, hw, hne, _⟩
  · have hval : (init_connection_params preSet inputsEmptyAccount envNone
        false none).fieldVal .account = some "" := rfl
    rw [hval] at h1
    exact absurd (Option.some.inj h1) (by decide)
  · have hval : (init_connection_params preSet inputsEmptyAccount envNone
        false none).fieldVal .account = some "" := rfl
    rw [hval] at hw
    exact hne (Option.some.inj hw).symm

/-- Claim C2, amended: when no interactive input-box key is present,
credential resolution never overwrites a previously resolved non-empty
field (the environment and secrets branches only write to empty fields,
and the environment additionally requires a non-empty, non-placeholder
value); interactive input-box values, when present, always override the
field verbatim — including with the empty string. -/
theorem C2_amended :
    (∀ (pre : CredState) (inputs : InputBoxes) (env : EnvMap)
        (debugMode : Bool) (secrets : Option SnowSecrets) (f : CField)
        (v : String),
      hasInputValues inputs = false → pre.fieldVal f = some v → v ≠ "" →
      (init_connection_params pre inputs env debugMode secrets).fieldVal f
        = some v) ∧
    (∀ (pre : CredState) (inputs : InputBoxes) (env : EnvMap)
        (debugMode : Bool) (secrets : Option SnowSecrets) (f : CField)
        (w : String),
      inputs.fieldVal f = some w →
      (init_connection_params pre inputs env debugMode secrets).fieldVal f
        = some w) :=
  ⟨fun pre inputs env dm sec f v hin hv hne =>
      init_no_input_preserves pre inputs env dm sec f v hin hv hne,
    fun pre inputs env dm sec f w h =>
      init_input_overrides pre inputs env dm sec f w h⟩

/-- Witness for C2_amended at concrete inputs: a populated pre-state with
no input boxes survives a run over a hostile environment, and a present
input box wins. -/
theorem C2_amended_witness :
    (init_connection_params preSet inputsNone envNone true none).fieldVal
        .account = some "acct0" ∧
    (init_connection_params preSet inputsEmptyAccount envNone false
        none).fieldVal .account = some "" :=
  ⟨C2_amended.1 preSet inputsNone envNone true none .account "acct0" rfl rfl
      (by decide),
    C2_amended.2 preSet inputsEmptyAccount envNone false none .account "" rfl⟩

/-- Claim C6 (confirmed): for every connection field, a present interactive
input-box value is copied verbatim into the resolved configuration,
regardless of the environment variables and the secrets store. -/
theorem C6_interactive_precedence (pre : CredState) (inputs : InputBoxes)
    (env : EnvMap) (debugMode : Bool) (secrets : Option SnowSecrets)
    (f : CField) (w : String) (h : inputs.fieldVal f = some w) :
    (init_connection_params pre inputs env debugMode secrets).fieldVal f
      = some w :=
  init_input_overrides pre inputs env debugMode secrets f w h

/-- Input boxes holding only an account value, used in the C6 witness. -/
def inputsBoxAccount : InputBoxes :=
  { inputsNone with account_input := some "box-acct" }

/-- An environment carrying a competing account value. -/
def envWithAccount : EnvMap :=
  { envNone with SNOWFLAKE_ACCOUNT := some "env-acct" }

/-- A secrets store carrying a competing account value. -/
def secretsWithAccount : SnowSecrets :=
  { ACCOUNT := some "sec-acct", USER := none, PAT := none,
    WAREHOUSE := none, DATABASE := none, SCHEMA := none }

/-- Witness for C6_interactive_precedence: the account input box overrides
an environment-provided and a secrets-provided account. -/
theorem C6_interactive_precedence_witness :
    CredState.fieldVal
      (init_connection_params preSet inputsBoxAccount envWithAccount true
        (some secretsWithAccount)) CField.account = some "box-acct" :=
  C6_interactive_precedence preSet inputsBoxAccount envWithAccount true
    (some secretsWithAccount) CField.account "box-acct" rfl

/-! ### Conversation messages and the analyst request client
(`get_analyst_response`, src/streamlit_app.py lines 469-617)

A message is a Python dict `{role, content, request_id?}`; user messages
carry no `request_id` key.  The single `requests.post` call is modelled by
an `HttpOutcome` argument (what the network did) while the request the
code issues is returned in an explicit trace list. -/

/-- A conversation message: `{"role": .., "content": .., "request_id"?}`. -/
structure Message where
  role : String
  content : JVal
  request_id : Option String

/-- What the one `requests.post` call did: a response (status, the
`X-Snowflake-Request-Id` header, the JSON-parse result of the body, and
the raw body text), a timeout, a `requests` transport exception, or any
other exception raised while making the request. -/
inductive HttpOutcome where
  | response (status : Nat) (requestIdHeader : Option String)
      (body : Except String JVal) (raw : String)
  | timeout
  | requestExc (msg : String)
  | otherExc (msg : String)

def API_ENDPOINT : String := "/api/v2/cortex/analyst/message"

def FEEDBACK_API_ENDPOINT : String := "/api/v2/cortex/analyst/feedback"

/-- `API_TIMEOUT = 50000  # in milliseconds`. -/
def API_TIMEOUT : Nat := 50000

/-- The session-state inputs `get_analyst_response` reads: the resolved
`snowflake_*` values, the raw input-box keys (preferred when present), the
token found on the live connection object, and the selected semantic
model path. -/
structure AnalystCtx where
  account : String
  user : String
  token : String
  warehouse : String
  database : String
  schemaName : String
  inputs : InputBoxes
  connRestToken : Option String
  selectedSemanticModelPath : String

/-- The HTTP POST issued by `get_analyst_response`.  `user`, `warehouse`,
`database` and `schema` are also read by the source but only printed, so
they do not appear in the request. -/
structure AnalystRequest where
  url : String
  authToken : String
  semanticModelFile : String
  bodyMessages : List Message
  timeoutSeconds : Nat

/-- Builds the one POST request: input-box account/token win over session
state, the connection token wins over both for the auth header. -/
def mkRequest (ctx : AnalystCtx) (messages : List Message) : AnalystRequest :=
  let account := ctx.inputs.account_input.getD ctx.account
  let token := ctx.inputs.token_input.getD ctx.token
  let host := account ++ ".snowflakecomputing.com"
  let api_url := "https://" ++ (host ++ API_ENDPOINT)
  let token_to_use := ctx.connRestToken.getD token
  { url := api_url
    authToken := token_to_use
    semanticModelFile := "@" ++ ctx.selectedSemanticModelPath
    bodyMessages := messages
    timeoutSeconds := API_TIMEOUT / 1000 }

/-- `"message" in response_json and "content" in response_json["message"]`
with Python evaluation order and exceptions. -/
def validateStructure (rj : JVal) : Except String Bool :=
  match pyIn "message" rj with
  | .error e => .error e
  | .ok false => .ok false
  | .ok true =>
    match pyIndex rj "message" with
    | .error e => .error e
    | .ok m => pyIn "content" m

/-- The HTTP-error message template (the f-string at src/streamlit_app.py
lines 578-589), concatenated right-associated around its four
interpolations. -/
def analystErrorText (status : Nat) (rid ec ms : String) : String :=
  "\n                🚨 An Analyst API error has occurred 🚨\n\n                * response code: \x60"
    ++ (toString status
    ++ ("\x60\n                * request-id: \x60"
    ++ (rid
    ++ ("\x60\n                * error code: \x60"
    ++ (ec
    ++ ("\x60\n\n                Message:\n                \x60\x60\x60\n                "
    ++ (ms
    ++ "\n                \x60\x60\x60\n                ")))))))

/-- The error message built for an HTTP status ≥ 400 with a parsed JSON
body: `parsed_content.get(...)` may itself raise (non-dict body). -/
def errMsg400 (status : Nat) (rid : String) (pc : JVal) :
    Except String String :=
  match pyGetD pc "error_code" (.str "N/A"),
      pyGetD pc "message" (.str "No message provided") with
  | .ok ecv, .ok msv =>
    .ok (analystErrorText status rid (toDisplay ecv) (toDisplay msv))
  | .error e, _ => .error e
  | .ok _, .error e => .error e

/-- Fallback error text when the ≥ 400 body fails to parse as JSON (or the
message template raised): `f"Failed request (id: {rid}) with status
{status}: {content}"`. -/
def failedReqText (rid : String) (status : Nat) (raw : String) : String :=
  "Failed request (id: "
    ++ (rid ++ (") with status " ++ (toString status ++ (": " ++ raw))))

/-- Shallow embedding of `get_analyst_response`.  Returns the
`(response_dict, error_msg)` pair together with the list of HTTP requests
issued (always exactly the one POST, whatever the outcome: the source has
no retry loop).  The surrounding `try/except` never lets an exception
escape: JSON-parse failures and `TypeError`s raised by the structure
validation land in the generic handlers. -/
def get_analyst_response (ctx : AnalystCtx) (messages : List Message)
    (outcome : HttpOutcome) : (JVal × Option String) × List AnalystRequest :=
  let req := mkRequest ctx messages
  let result : JVal × Option String :=
    match outcome with
    | .timeout =>
      (.obj [("request_id", .str "timeout")],
        some ("Request timed out after "
          ++ (toString (API_TIMEOUT / 1000) ++ " seconds. Please try again.")))
    | .requestExc m =>
      (.obj [("request_id", .str "error")], some ("Request error: " ++ m))
    | .otherExc m =>
      (.obj [("request_id", .str "error")], some ("Unexpected error: " ++ m))
    | .response status hdr body raw =>
      let request_id := hdr.getD "unknown"
      if status < 400 then
        match body with
        | .error e =>
          (.obj [("request_id", .str "error")],
            some ("Unexpected error: " ++ e))
        | .ok rj =>
          match validateStructure rj with
          | .ok true => (jInsert rj "request_id" (.str request_id), none)
          | .ok false =>
            (.obj [("request_id", .str request_id)],
              some "Received an invalid response format from the Analyst API.")
          | .error e =>
            (.obj [("request_id", .str "error")],
              some ("Unexpected error: " ++ e))
      else
        match body with
        | .ok pc =>
          match errMsg400 status request_id pc with
          | .ok m => (.obj [("request_id", .str request_id)], some m)
          | .error _ =>
            (.obj [("request_id", .str request_id)],
              some (failedReqText request_id status raw))
        | .error _ =>
          (.obj [("request_id", .str request_id)],
            some (failedReqText request_id status raw))
  (result, [req])

/-- The interpolated values all occur in the HTTP-error message text. -/
theorem analystErrorText_contains (status : Nat) (rid ec ms : String) :
    containsB (analystErrorText status rid ec ms) ec = true ∧
    containsB (analystErrorText status rid ec ms) ms = true ∧
    containsB (analystErrorText status rid ec ms) rid = true := by
  unfold analystErrorText
  refine ⟨?_, ?_, ?_⟩
  · exact containsB_cons _ _ _ (containsB_cons _ _ _ (containsB_cons _ _ _
      (containsB_cons _ _ _ (containsB_cons _ _ _ (containsB_here _ _)))))
  · exact containsB_cons _ _ _ (containsB_cons _ _ _ (containsB_cons _ _ _
      (containsB_cons _ _ _ (containsB_cons _ _ _ (containsB_cons _ _ _
      (containsB_cons _ _ _ (containsB_here _ _)))))))
  · exact containsB_cons _ _ _ (containsB_cons _ _ _ (containsB_cons _ _ _
      (containsB_here _ _)))

/-- Whether the returned dict contains a message with content, with the
source's own membership semantics (`"content" in response["message"]`). -/
def msgWithContentB (d : JVal) : Bool :=
  match jGet d "message" with
  | some m =>
    match pyIn "content" m with
    | .ok b => b
    | .error _ => false
  | none => false

/-- A successful structure validation forces the body to be a dict whose
`message` value passes the `content` membership test. -/
theorem validateStructure_ok_true (rj : JVal)
    (h : validateStructure rj = .ok true) :
    ∃ l m, rj = .obj l ∧ jLookup l "message" = some m ∧
      pyIn "content" m = .ok true := by
  cases rj with
  | null => simp [validateStructure, pyIn] at h
  | num n => simp [validateStructure, pyIn] at h
  | str s =>
    rcases hcb : containsB s "message" with _ | _ <;>
      simp [validateStructure, pyIn, pyIndex, hcb] at h
  | arr xs =>
    rcases hcb : xs.any fun v => match v with
        | .str t => t == "message" | _ => false with _ | _ <;>
      simp [validateStructure, pyIn, pyIndex, hcb] at h
  | obj l =>
    rcases hl : jLookup l "message" with _ | m
    · simp [validateStructure, pyIn, hl] at h
    · refine ⟨l, m, rfl, hl, ?_⟩
      simpa [validateStructure, pyIn, pyIndex, hl] using h

/-- Every error-returning branch yields a dict of the shape
`{"request_id": rid}`; it has the key. -/
theorem err_obj_haskey (rid : String) :
    hasKeyB (.obj [("request_id", .str rid)]) "request_id" = true := by
  simp [hasKeyB, jGet, jLookup]

/-- The error-branch dict `{"request_id": rid}` has no `message` key. -/
theorem err_obj_no_message (rid : String) :
    msgWithContentB (.obj [("request_id", .str rid)]) = false := by
  have hne : ¬ ("request_id" = "message") := by decide
  simp [msgWithContentB, jGet, jLookup, hne]

/-- Claim C9 (confirmed): whatever the network outcome, the embedded
`get_analyst_response` returns a `(dict, error)` pair — no branch escapes
the surrounding try/except — the dict always carries a `"request_id"` key,
and the error is `None` exactly when the dict contains a message with
content. -/
theorem C9_total_response_shape (ctx : AnalystCtx) (messages : List Message)
    (outcome : HttpOutcome) :
    hasKeyB ((get_analyst_response ctx messages outcome).1.1)
        "request_id" = true ∧
    (((get_analyst_response ctx messages outcome).1.2 = none) ↔
      msgWithContentB ((get_analyst_response ctx messages outcome).1.1)
        = true) := by
  cases outcome with
  | timeout =>
    exact ⟨err_obj_haskey _, by simp [get_analyst_response, err_obj_no_message]⟩
  | requestExc m =>
    exact ⟨err_obj_haskey _, by simp [get_analyst_response, err_obj_no_message]⟩
  | otherExc m =>
    exact ⟨err_obj_haskey _, by simp [get_analyst_response, err_obj_no_message]⟩
  | response status hdr body raw =>
    by_cases hs : status < 400
    · cases body with
      | error e =>
        constructor
        · simp [get_analyst_response, hs, err_obj_haskey]
        · simp [get_analyst_response, hs, err_obj_no_message]
      | ok rj =>
        rcases hv : validateStructure rj with e | b
        · constructor
          · simp [get_analyst_response, hs, hv, err_obj_haskey]
          · simp [get_analyst_response, hs, hv, err_obj_no_message]
        · cases b with
          | false =>
            constructor
            · simp [get_analyst_response, hs, hv, err_obj_haskey]
            · simp [get_analyst_response, hs, hv, err_obj_no_message]
          | true =>
            obtain ⟨l, m, rfl, hl, hm⟩ := validateStructure_ok_true rj hv
            have hlook : jLookup (jInsertList l "request_id"
                (.str (hdr.getD "unknown"))) "message" = some m := by
              rw [jLookup_jInsertList_ne _ _ _ _ (by decide)]
              exact hl
            constructor
            · simp [get_analyst_response, hs, hv, hasKeyB, jGet, jInsert,
                jLookup_jInsertList_self]
            · simp [get_analyst_response, hs, hv, msgWithContentB, jGet,
                jInsert, hlook, hm]
    · cases body with
      | error e =>
        constructor
        · simp [get_analyst_response, hs, err_obj_haskey]
        · simp [get_analyst_response, hs, err_obj_no_message]
      | ok pc =>
        rcases he : errMsg400 status (hdr.getD "unknown") pc with e | m
        · constructor
          · simp [get_analyst_response, hs, he, err_obj_haskey]
          · simp [get_analyst_response, hs, he, err_obj_no_message]
        · constructor
          · simp [get_analyst_response, hs, he, err_obj_haskey]
          · simp [get_analyst_response, hs, he, err_obj_no_message]

/-- Claim C8 (confirmed): every call issues exactly one POST — whatever
the outcome, including timeout, transport error and HTTP error status,
the request trace is the single built request, so there is no retry — and
that request's timeout is `API_TIMEOUT/1000 = 50` seconds. -/
theorem C8_single_post_fixed_timeout (ctx : AnalystCtx)
    (messages : List Message) (outcome : HttpOutcome) :
    (get_analyst_response ctx messages outcome).2
        = [mkRequest ctx messages] ∧
    (mkRequest ctx messages).timeoutSeconds = 50 ∧
    API_TIMEOUT = 50000 :=
  ⟨rfl, rfl, rfl⟩

/-- The HTTP-400 body used by claim C3. -/
def body400 : JVal :=
  .obj [("error_code", .str "X"), ("message", .str "Y"),
        ("request_id", .str "abc")]

/-- A trivial request context used in concrete analyst scenarios. -/
def ctx0 : AnalystCtx :=
  { account := "acct", user := "user", token := "tok", warehouse := "wh",
    database := "db", schemaName := "sch", inputs := inputsNone,
    connRestToken := none,
    selectedSemanticModelPath :=
      "CORTEX_DEMOS.CONTOSO.ANALYST_STAGE/ContosoDemo.yaml" }

/-- Claim C3 as stated: for a 400 response whose body is
`{error_code:"X", message:"Y", request_id:"abc"}` the produced error text
contains `"X"`, `"Y"` and `"abc"` — asserted for every header
configuration, since the claim mentions none. -/
def analystErrorTextClaim : Prop :=
  ∀ (hdr : Option String) (raw : String) (ctx : AnalystCtx)
    (msgs : List Message),
    ∃ t, (get_analyst_response ctx msgs
          (.response 400 hdr (.ok body400) raw)).1.2 = some t ∧
      containsB t "X" = true ∧ containsB t "Y" = true ∧
      containsB t "abc" = true

set_option maxRecDepth 8000 in
/-- Claim C3, counterexample: when the `X-Snowflake-Request-Id` response
header is absent, the request id interpolated into the error text is the
header default `"unknown"`, not the body's `request_id` field, so `"abc"`
does not occur in the text. -/
theorem C3_counterexample : ¬ analystErrorTextClaim := by
  intro h
  obtain ⟨t, ht, _, _, habc⟩ := h none "" ctx0 []
  have hval : (get_analyst_response ctx0 []
      (.response 400 none (.ok body400) "")).1.2
      = some (analystErrorText 400 "unknown" "X" "Y") := by
    simp [get_analyst_response, errMsg400, pyGetD, jLookup, toDisplay, body400]
  rw [hval] at ht
  rw [← Option.some.inj ht] at habc
  exact absurd habc (by decide)

/-- Claim C3, amended: for a 400 response with body
`{error_code:"X", message:"Y", request_id:"abc"}` the produced error text
contains the error code and the message, and it carries the request id
taken from the `X-Snowflake-Request-Id` response header (default
`"unknown"`); the body's `request_id` field is ignored, so `"abc"`
appears only when the header carries it. -/
theorem C3_amended (ec ms rid raw : String) (hdr : Option String)
    (ctx : AnalystCtx) (msgs : List Message) :
    (get_analyst_response ctx msgs (.response 400 hdr
        (.ok (.obj [("error_code", .str ec), ("message", .str ms),
          ("request_id", .str rid)])) raw)).1.2
      = some (analystErrorText 400 (hdr.getD "unknown") ec ms) ∧
    containsB (analystErrorText 400 (hdr.getD "unknown") ec ms) ec = true ∧
    containsB (analystErrorText 400 (hdr.getD "unknown") ec ms) ms = true ∧
    containsB (analystErrorText 400 (hdr.getD "unknown") ec ms)
      (hdr.getD "unknown") = true := by
  obtain ⟨h1, h2, h3⟩ :=
    analystErrorText_contains 400 (hdr.getD "unknown") ec ms
  refine ⟨?_, h1, h2, h3⟩
  simp [get_analyst_response, errMsg400, pyGetD, jLookup, toDisplay]

/-! ### Session state, reset, `process_user_input` and the `main` cycle
(src/streamlit_app.py lines 166-230 and 411-467)

The Streamlit session state is a record; one run of `main` (one script
rerun) is a function of the state and of the network outcome of any
analyst call it performs.  The sidebar (credential boxes, connect button)
runs between the initialisation and the bootstrap check; its events are
modelled as separate state transformations applied between cycles, and
credential resolution is modelled separately above (it touches only the
`snowflake_*`/`*_input` keys, disjoint from this record). -/

/-- `CONN.rest` — the connector's REST object with its session token. -/
structure RestObj where
  token : Option String

/-- The `snowflake.connector` connection object stored under `CONN`. -/
structure ConnObj where
  rest : Option RestObj

/-- The session-state keys the conversation machine touches.
`messages_present` models whether the `messages` key exists at all (the
`"messages" not in st.session_state` check); when it is `false` the
`messages` list is the irrelevant default `[]`. -/
structure AppState where
  messages_present : Bool
  messages : List Message
  active_suggestion : Option String
  just_reset : Bool
  conn : Option ConnObj
  sess : Option Unit
  fire_API_error_notify : Bool

/-- `st.session_state.CONN.rest.token` when the whole chain is present. -/
def connToken (s : AppState) : Option String :=
  match s.conn with
  | some c =>
    match c.rest with
    | some r => r.token
    | none => none
  | none => none

/-- `has_connection` from `main`: the token chain exists and is non-null. -/
def hasConnState (s : AppState) : Bool :=
  (connToken s).isSome

/-- Shallow embedding of `reset_session_state`: clear the conversation and
the pending suggestion, set the one-shot `just_reset` flag, and restore
`CONN`/`session` when they existed (they are never deleted, so the restore
is the identity; it is kept for fidelity). -/
def reset_session_state (s : AppState) : AppState :=
  let snowflake_conn := s.conn
  let snowflake_session := s.sess
  let s1 := { s with
    messages_present := true
    messages := []
    active_suggestion := none
    just_reset := true }
  let s2 := if snowflake_conn.isSome then { s1 with conn := snowflake_conn }
            else s1
  if snowflake_session.isSome then { s2 with sess := snowflake_session }
  else s2

theorem reset_messages (s : AppState) : (reset_session_state s).messages = [] := by
  unfold reset_session_state
  rcases s.conn with _ | c <;> rcases s.sess with _ | u <;> simp

theorem reset_just_reset (s : AppState) :
    (reset_session_state s).just_reset = true := by
  unfold reset_session_state
  rcases s.conn with _ | c <;> rcases s.sess with _ | u <;> simp

theorem reset_messages_present (s : AppState) :
    (reset_session_state s).messages_present = true := by
  unfold reset_session_state
  rcases s.conn with _ | c <;> rcases s.sess with _ | u <;> simp

theorem reset_conn (s : AppState) : (reset_session_state s).conn = s.conn := by
  unfold reset_session_state
  rcases s.conn with _ | c <;> rcases s.sess with _ | u <;> simp

theorem reset_sess (s : AppState) : (reset_session_state s).sess = s.sess := by
  unfold reset_session_state
  rcases s.conn with _ | c <;> rcases s.sess with _ | u <;> simp

/-- The content list `[{"type": "text", "text": t}]`. -/
def singleTextContent (t : String) : JVal :=
  .arr [.obj [("type", .str "text"), ("text", .str t)]]

/-- The user message appended by `process_user_input` (no `request_id`
key). -/
def mkUserMessage (prompt : String) : Message :=
  { role := "user", content := singleTextContent prompt, request_id := none }

/-- `response.get("request_id", "unknown")` specialised to the string
values this client produces: every `request_id` the embedded
`get_analyst_response` stores is a string, so the non-string fallback to
the default is unreachable. -/
def getRequestIdD (response : JVal) (dflt : String) : String :=
  match jGet response "request_id" with
  | some (.str s) => s
  | some _ => dflt
  | none => dflt

/-- The guard at line 437: `error_msg is None and response and "message"
in response and "content" in response["message"]`, with Python evaluation
order and exceptions. -/
def analystCond (error_msg : Option String) (response : JVal) :
    Except String Bool :=
  match error_msg with
  | some _ => .ok false
  | none =>
    if pyTruthy response then
      match pyIn "message" response with
      | .error e => .error e
      | .ok false => .ok false
      | .ok true =>
        match pyIndex response "message" with
        | .error e => .error e
        | .ok m => pyIn "content" m
    else .ok false

/-- The body of `process_user_input`'s try block after the analyst call:
build the analyst message (and whether the error-notification flag is to
be set) or raise. -/
def buildAnalystMessage (response : JVal) (error_msg : Option String) :
    Except String (Message × Bool) :=
  match analystCond error_msg response with
  | .error e => .error e
  | .ok true =>
    match pyIndex response "message" with
    | .error e => .error e
    | .ok m =>
      match pyIndex m "content" with
      | .error e => .error e
      | .ok cv =>
        .ok ({ role := "analyst"
               content := cv
               request_id := some (getRequestIdD response "unknown") }, false)
  | .ok false =>
    let request_id := if pyTruthy response then getRequestIdD response "unknown"
                      else "unknown"
    let error_text :=
      error_msg.getD "Received an invalid response format from the Analyst API."
    .ok ({ role := "analyst"
           content := singleTextContent error_text
           request_id := some request_id }, true)

/-- Shallow embedding of `process_user_input`: append the user message,
call the analyst client on the extended history, then append exactly one
analyst message — the successful one, the error-text one (setting the
notification flag), or, when the try body raised, the
unexpected-exception one. -/
def process_user_input (ctx : AnalystCtx) (s : AppState) (prompt : String)
    (outcome : HttpOutcome) : AppState :=
  let new_user_message := mkUserMessage prompt
  let s1 := { s with messages := s.messages ++ [new_user_message] }
  let pr := (get_analyst_response ctx s1.messages outcome).1
  match buildAnalystMessage pr.1 pr.2 with
  | .ok (msg, fire) =>
    { s1 with
      messages := s1.messages ++ [msg]
      fire_API_error_notify :=
        if fire then true else s1.fire_API_error_notify }
  | .error e =>
    { s1 with
      messages := s1.messages ++
        [{ role := "analyst"
           content := singleTextContent ("An unexpected error occurred: " ++ e)
           request_id := some "error" }]
      fire_API_error_notify := true }

/-- The static welcome message appended when no connection is active. -/
def welcome_message : Message :=
  { role := "analyst"
    content := singleTextContent
      "👋 Welcome to Snowflake Cortext Analyst for Qlik Cloud! Please connect to Snowflake using the sidebar before asking questions."
    request_id := some "welcome" }

/-- One run of `main` over the conversation-machine state: initialise the
state via `reset_session_state` when the `messages` key is absent, then
either auto-submit the bootstrap question (connection present, empty
conversation, `just_reset` clear), or append the welcome message and clear
the flag (no connection, empty conversation), or do nothing. -/
def mainCycle (ctx : AnalystCtx) (s : AppState) (outcome : HttpOutcome) :
    AppState :=
  let s0 := if s.messages_present then s else reset_session_state s
  let has_connection := hasConnState s0
  let just_reset := s0.just_reset
  if s0.messages.isEmpty && has_connection && !just_reset then
    process_user_input { ctx with connRestToken := connToken s0 } s0
      "What questions can I ask?" outcome
  else if s0.messages.isEmpty && !has_connection then
    let s1 := if just_reset then { s0 with just_reset := false } else s0
    { s1 with messages := s1.messages ++ [welcome_message] }
  else s0

/-- Every successfully built analyst message carries the analyst role. -/
theorem buildAnalystMessage_role (response : JVal) (error_msg : Option String)
    (msg : Message) (fire : Bool)
    (h : buildAnalystMessage response error_msg = .ok (msg, fire)) :
    msg.role = "analyst" := by
  unfold buildAnalystMessage at h
  split at h
  · exact absurd h (by simp)
  · split at h
    · exact absurd h (by simp)
    · split at h
      · exact absurd h (by simp)
      · simp only [Except.ok.injEq, Prod.mk.injEq] at h
        rw [← h.1]
  · simp only [Except.ok.injEq, Prod.mk.injEq] at h
    rw [← h.1]

/-- Claim C10 (confirmed): every `process_user_input` run appends exactly
two messages — first the user message, whose content is the single text
item holding the prompt, then an analyst-role message — and leaves the
existing conversation prefix untouched. -/
theorem C10_two_messages_appended (ctx : AnalystCtx) (s : AppState)
    (prompt : String) (outcome : HttpOutcome) :
    ∃ m : Message,
      (process_user_input ctx s prompt outcome).messages
        = s.messages ++ [mkUserMessage prompt, m] ∧ m.role = "analyst" := by
  rcases hb : buildAnalystMessage
      ((get_analyst_response ctx (s.messages ++ [mkUserMessage prompt])
        outcome).1).1
      ((get_analyst_response ctx (s.messages ++ [mkUserMessage prompt])
        outcome).1).2 with e | ⟨msg, fire⟩
  · refine ⟨{ role := "analyst"
              content := singleTextContent
                ("An unexpected error occurred: " ++ e)
              request_id := some "error" }, ?_, rfl⟩
    simp [process_user_input, hb]
  · refine ⟨msg, ?_, buildAnalystMessage_role _ _ _ _ hb⟩
    simp [process_user_input, hb]

/-- The malformed analyst outcome of claim C4: HTTP 200 with body `{}`. -/
def malformedOutcome (raw : String) : HttpOutcome :=
  .response 200 none (.ok (.obj [])) raw

/-- The analyst error message appended on a malformed payload. -/
def invalidFormatMessage : Message :=
  { role := "analyst"
    content := singleTextContent
      "Received an invalid response format from the Analyst API."
    request_id := some "unknown" }

/-- Claim C4 (confirmed): on a malformed analyst payload (status 200,
body `{}`) the conversation gains exactly one analyst-role error-content
message (after the user message that every submission appends), and the
one-shot API-error notification flag is set. -/
theorem C4_malformed_payload (ctx : AnalystCtx) (s : AppState)
    (p raw : String) :
    (process_user_input ctx s p (malformedOutcome raw)).messages
      = s.messages ++ [mkUserMessage p, invalidFormatMessage] ∧
    (process_user_input ctx s p (malformedOutcome raw)).fire_API_error_notify
      = true := by
  constructor <;>
    simp [process_user_input, get_analyst_response, malformedOutcome,
      validateStructure, pyIn, jLookup, buildAnalystMessage, analystCond,
      pyTruthy, getRequestIdD, jGet, invalidFormatMessage]

/-- Claim C7 (confirmed): a reset empties the conversation while the
connection object and the Snowpark session stored in the state are kept
exactly as they were — in particular a non-null `CONN` survives. -/
theorem C7_reset_clears_conversation_preserves_handles (s : AppState) :
    (reset_session_state s).messages = [] ∧
    (reset_session_state s).conn = s.conn ∧
    (reset_session_state s).sess = s.sess :=
  ⟨reset_messages s, reset_conn s, reset_sess s⟩

theorem connToken_reset (s : AppState) :
    connToken (reset_session_state s) = connToken s := by
  unfold connToken
  rw [reset_conn]

theorem hasConnState_reset (s : AppState) :
    hasConnState (reset_session_state s) = hasConnState s := by
  unfold hasConnState
  rw [connToken_reset]

/-- First-entry state with an active session, an empty conversation and no
prior reset: the `messages` key is absent and `just_reset` is clear. -/
def sFirst : AppState :=
  { messages_present := false
    messages := []
    active_suggestion := none
    just_reset := false
    conn := some { rest := some { token := some "tok" } }
    sess := some ()
    fire_API_error_notify := false }

/-- Initialised state with an active session, empty conversation and the
just-reset flag set (the state right after any reset while connected). -/
def sConnEmptyReset : AppState :=
  { sFirst with messages_present := true, just_reset := true }

/-- Initialised state with no connection and an empty conversation. -/
def sNoConnEmpty : AppState :=
  { sFirst with messages_present := true, just_reset := true, conn := none }

/-- Claim C5 as stated, bootstrap conjunct: on first entry (no `messages`
key yet) with an active session, an empty conversation and no prior
reset, the cycle auto-submits the fixed bootstrap question, i.e. the
conversation afterwards starts with that user message. -/
def bootstrapClaim : Prop :=
  ∀ (ctx : AnalystCtx) (s : AppState) (outcome : HttpOutcome),
    s.messages_present = false → s.just_reset = false → s.messages = [] →
    hasConnState s = true →
    ∃ rest, (mainCycle ctx s outcome).messages
        = mkUserMessage "What questions can I ask?" :: rest

/-- Claim C5, counterexample: on first entry the initialisation itself
runs `reset_session_state`, which sets `just_reset`, so even with an
active session the bootstrap question is never auto-submitted — the cycle
ends with an empty conversation.  (The flag is also never cleared while a
session is active, so the suppression then persists beyond one cycle,
contradicting the one-cycle part of the claim as well.) -/
theorem C5_counterexample : ¬ bootstrapClaim := by
  intro h
  obtain ⟨rest, hr⟩ := h ctx0 sFirst .timeout rfl rfl rfl rfl
  have hempty : (mainCycle ctx0 sFirst .timeout).messages = [] := rfl
  rw [hempty] at hr
  exact List.noConfusion hr

/-- Claim C5, amended: (1) on first entry with an active session the cycle
only performs the initialisation reset — the bootstrap question is
suppressed because initialisation sets the just-reset flag; (2) with an
active session, an empty conversation and the flag set, the cycle is the
identity, so after a reset the auto-submission stays suppressed on every
subsequent cycle, not for exactly one; (3) with no active session and an
empty conversation the cycle appends the one static welcome message, does
not auto-submit, and clears the flag. -/
theorem C5_amended :
    (∀ (ctx : AnalystCtx) (s : AppState) (outcome : HttpOutcome),
      s.messages_present = false → hasConnState s = true →
      mainCycle ctx s outcome = reset_session_state s) ∧
    (∀ (ctx : AnalystCtx) (s : AppState) (outcome : HttpOutcome),
      s.messages_present = true → s.messages = [] →
      hasConnState s = true → s.just_reset = true →
      mainCycle ctx s outcome = s) ∧
    (∀ (ctx : AnalystCtx) (s : AppState) (outcome : HttpOutcome),
      s.messages_present = true → s.messages = [] →
      hasConnState s = false →
      (mainCycle ctx s outcome).messages = [welcome_message] ∧
      (mainCycle ctx s outcome).just_reset = false) := by
  refine ⟨?_, ?_, ?_⟩
  · intro ctx s outcome h1 h2
    simp [mainCycle, h1, reset_messages, reset_just_reset,
      hasConnState_reset, h2]
  · intro ctx s outcome h1 h2 h3 h4
    simp [mainCycle, h1, h2, h3, h4]
  · intro ctx s outcome h1 h2 h3
    constructor <;> rcases hj : s.just_reset with _ | _ <;>
      simp [mainCycle, h1, h2, h3, hj]

/-- Witness for C5_amended at concrete states: a connected first entry
only resets; a connected empty-and-reset state is a fixed point of the
cycle (suppression persists); a disconnected empty state gains the
welcome message and drops the flag. -/
theorem C5_amended_witness :
    mainCycle ctx0 sFirst .timeout = reset_session_state sFirst ∧
    mainCycle ctx0 sConnEmptyReset .timeout = sConnEmptyReset ∧
    (mainCycle ctx0 sNoConnEmpty .timeout).messages = [welcome_message] ∧
    (mainCycle ctx0 sNoConnEmpty .timeout).just_reset = false :=
  ⟨C5_amended.1 ctx0 sFirst .timeout rfl rfl,
    C5_amended.2.1 ctx0 sConnEmptyReset .timeout rfl rfl rfl rfl,
    (C5_amended.2.2 ctx0 sNoConnEmpty .timeout rfl rfl rfl).1,
    (C5_amended.2.2 ctx0 sNoConnEmpty .timeout rfl rfl rfl).2⟩

/-! ### SQL execution and the result renderer
(`get_query_exec_result`, `display_sql_query`,
src/streamlit_app.py lines 690-802)

The warehouse is an oracle: `toPandas` is `session.sql(q).to_pandas()`,
`collectQ` is `session.sql(q).collect()`, and `now` is `int(time.time())`
(used for the temporary-table name in the NA-coercion fallback).  Every
statement sent to the warehouse is also collected in a trace list.
`st.cache_data` memoises a pure function of the query text, so it does
not change any result modelled here. -/

/-- A materialised result table: ordered columns, ordered rows of cells
(cells as their displayed strings). -/
structure PandasDF where
  cols : List String
  rows : List (List String)

/-- The warehouse session oracle. -/
structure Warehouse where
  toPandas : String → Except String PandasDF
  collectQ : String → Except String Unit
  now : Nat

/-- The pandas error message that triggers the NA-coercion fallback. -/
def na_error_text : String :=
  "Cannot convert non-finite values (NA or inf) to integer"

/-- The summarization statement built for small result sets (the f-string
at src/streamlit_app.py lines 784-791), with `;` stripped from the inner
query. -/
def summarySql (sql : String) : String :=
  "SELECT SNOWFLAKE.CORTEX.COMPLETE(\n                    \x27mistral-large2\x27,\n                    \x27Summarize results, Show trends & Itemize top insights & trends from the following json data in less than 150 words. Data: \x27 ||\n                    (\n                        SELECT array_agg(object_construct(*))::string as Output from\n                        ("
    ++ ((sql.replace ";" "")
    ++ ")\n                    )\n                ) as Insights")

/-- The null-coercion column expression: integer-typed columns become
`COALESCE(c, 0)`, float-like ones `COALESCE(c, 0.0)`, others pass
through (`'INT' in col_type.upper()` is a substring test, as in the
source). -/
def colExprFor (colName colType : String) : String :=
  let up := colType.toUpper
  if containsB up "INT" then
    "COALESCE(" ++ (colName ++ (", 0) AS " ++ colName))
  else if containsB up "FLOAT" || containsB up "DOUBLE" ||
      containsB up "DECIMAL" || containsB up "NUMERIC" then
    "COALESCE(" ++ (colName ++ (", 0.0) AS " ++ colName))
  else colName

/-- `row[colName]` on a dataframe row (KeyError / positional error when
the schema frame lacks the column). -/
def dfCell (df : PandasDF) (row : List String) (colName : String) :
    Except String String :=
  match df.cols.findIdx? (fun c => c == colName) with
  | some i =>
    match row.get? i with
    | some v => .ok v
    | none => .error ("IndexError: " ++ colName)
  | none => .error ("KeyError: " ++ colName)

/-- The `iterrows` loop over `DESCRIBE TABLE` output, building the list of
cast column expressions. -/
def buildCols (schemaDf : PandasDF) : Except String (List String) :=
  schemaDf.rows.mapM (fun row =>
    match dfCell schemaDf row "name" with
    | .error e => .error e
    | .ok nm =>
      match dfCell schemaDf row "type" with
      | .error e => .error e
      | .ok ty => .ok (colExprFor nm ty))

/-- The NA-coercion fallback: create a temporary table from the query,
describe it, re-select with per-type null coercion, drop the table.
Returns the result (or the first raised error) and the statements sent. -/
def naFallback (w : Warehouse) (query : String) :
    Except String PandasDF × List String :=
  let tname := "TEMP_QUERY_RESULT_" ++ toString w.now
  let createQ := "CREATE TEMPORARY TABLE " ++ (tname ++ (" AS " ++ query))
  match w.collectQ createQ with
  | .error e => (.error e, [createQ])
  | .ok _ =>
    let describeQ := "DESCRIBE TABLE " ++ tname
    match w.toPandas describeQ with
    | .error e => (.error e, [createQ, describeQ])
    | .ok schemaDf =>
      match buildCols schemaDf with
      | .error e => (.error e, [createQ, describeQ])
      | .ok columns =>
        let safeQ := "SELECT "
          ++ (String.intercalate ", " columns ++ (" FROM " ++ tname))
        match w.toPandas safeQ with
        | .error e => (.error e, [createQ, describeQ, safeQ])
        | .ok df =>
          let dropQ := "DROP TABLE IF EXISTS " ++ tname
          match w.collectQ dropQ with
          | .error e => (.error e, [createQ, describeQ, safeQ, dropQ])
          | .ok _ => (.ok df, [createQ, describeQ, safeQ, dropQ])

/-- Shallow embedding of `get_query_exec_result`: returns the
`(Optional[DataFrame], Optional[str])` pair of the source plus the trace
of statements sent to the warehouse. -/
def get_query_exec_result (sess : Option Warehouse) (query : String) :
    (Option PandasDF × Option String) × List String :=
  match sess with
  | none =>
    ((none,
      some "No active Snowflake session. Please connect to Snowflake first."),
      [])
  | some w =>
    match w.toPandas query with
    | .ok df => ((some df, none), [query])
    | .error e =>
      if containsB e na_error_text then
        match naFallback w query with
        | (.ok df, tr) => ((some df, none), query :: tr)
        | (.error e2, tr) =>
          ((none, some ("Error executing query: " ++ e2)), query :: tr)
      else
        ((none, some ("Error executing query: " ++ e)), [query])

/-- What one `display_sql_query` run shows for its results expander.
`pyError` marks an uncaught Python exception: the script run aborts there,
so the data and chart tabs are not rendered. -/
inductive RenderOutcome where
  | noSession
  | execError (msg : String)
  | noData
  | rendered (summaryText : Option String)
  | pyError (msg : String)

/-- Shallow embedding of `display_sql_query`: run the query; on failure
show the error; on an empty table report no data; on at most 20 rows run
the summarization query and display `str(DataSummary[0].iat[0, 0])` —
note the source does not check `DataSummary[0]` for `None` nor the frame
for emptiness, so a failed or empty summarization result raises — then
render the data and chart tabs. -/
def display_sql_query (sess : Option Warehouse) (sql : String) :
    RenderOutcome × List String :=
  match sess with
  | none => (.noSession, [])
  | some w =>
    let r := get_query_exec_result (some w) sql
    let tr := r.2
    match r.1.1 with
    | none =>
      (.execError ("Could not execute generated SQL query. Error: "
        ++ (r.1.2.getD "")), tr)
    | some df =>
      if df.rows.isEmpty then (.noData, tr)
      else if df.rows.length ≤ 20 then
        let sql_new := summarySql sql
        let r2 := get_query_exec_result (some w) sql_new
        match r2.1.1 with
        | none =>
          (.pyError "AttributeError: NoneType object has no attribute iat",
            tr ++ r2.2)
        | some sdf =>
          match sdf.rows.head? with
          | none =>
            (.pyError "IndexError: single positional indexer is out-of-bounds",
              tr ++ r2.2)
          | some r0 =>
            match r0.head? with
            | none =>
              (.pyError "IndexError: single positional indexer is out-of-bounds",
                tr ++ r2.2)
            | some cell => (.rendered (some cell), tr ++ r2.2)
      else (.rendered none, tr)

/-- The primary query of the C1 scenario. -/
def sql0 : String := "SELECT A FROM T"

/-- Its one-row result table. -/
def df1 : PandasDF := { cols := ["A"], rows := [["1"]] }

/-- A warehouse where the primary query succeeds with one row and every
other statement — in particular the summarization query — fails. -/
def failWarehouse : Warehouse :=
  { toPandas := fun q =>
      if q = sql0 then .ok df1
      else .error "SQL compilation error: summarization failed"
    collectQ := fun _ => .ok ()
    now := 0 }

set_option maxRecDepth 16000 in
/-- Claim C1, code evaluation at the failing input: for a one-row result
(row count ≤ 20) the renderer does issue exactly one extra summarization
query — the trace is the primary query followed by the summarization
statement — but when that query fails, `get_query_exec_result` returns
`(None, error)` and the unguarded `DataSummary[0].iat[0, 0]` raises, so
the run aborts before the data and chart tabs: the failure of the
secondary call does affect the primary result display, contradicting the
claim (the code elsewhere always checks the `None` case, so this is a
slip in the code rather than in the spec). -/
theorem C1_summarization_failure_aborts_render :
    (display_sql_query (some failWarehouse) sql0).2
      = [sql0, summarySql sql0] ∧
    (display_sql_query (some failWarehouse) sql0).1
      = .pyError "AttributeError: NoneType object has no attribute iat" := by
  constructor <;> rfl

end CortexApp
